import Mathlib

/-!
Shallow embedding of `src/AbstractFactory/main.py`, an Abstract Factory
illustration for a cross-platform GUI toolkit.  The Python classes are
modelled as finite inductive types (one constructor per concrete class),
their string-returning methods as total Lean functions translated from the
method bodies, and the script output as an explicit character stream built
from a model of Python's `print`.
-/

/-- Platform variant tag: the implicit Windows/MacOS grouping of the
concrete classes in the source. -/
inductive Variant where
  | windows
  | macos
deriving DecidableEq, Fintype

/-- Literal name of each variant, as it appears in the source strings. -/
def Variant.name : Variant → String
  | .windows => "Windows"
  | .macos => "MacOS"

/-- Concrete `Button` implementations: `WindowsButton` and `MacOSButton`. -/
inductive Button where
  | windowsButton
  | macosButton
deriving DecidableEq, Fintype

/-- Translation of `WindowsButton.click` / `MacOSButton.click`: each
returns its fixed literal string. -/
def Button.click : Button → String
  | .windowsButton => "You have clicked a Windows button."
  | .macosButton => "You have clicked a MacOS button."

/-- Which variant family a concrete button belongs to. -/
def Button.variant : Button → Variant
  | .windowsButton => .windows
  | .macosButton => .macos

/-- Concrete `Checkbox` implementations: `WindowsCheckbox` and
`MacOSCheckbox`. -/
inductive Checkbox where
  | windowsCheckbox
  | macosCheckbox
deriving DecidableEq, Fintype

/-- Translation of `WindowsCheckbox.check` / `MacOSCheckbox.check`. -/
def Checkbox.check : Checkbox → String
  | .windowsCheckbox => "Windows checkbox is checked."
  | .macosCheckbox => "MacOS checkbox is checked."

/-- Which variant family a concrete checkbox belongs to. -/
def Checkbox.variant : Checkbox → Variant
  | .windowsCheckbox => .windows
  | .macosCheckbox => .macos

/-- Translation of `toggle_with_button`: each concrete checkbox calls
`button.click()` and interpolates the result into its variant-labelled
format string `f"V checkbox toggled with (\x7bresult\x7d)"`. -/
def Checkbox.toggle_with_button (c : Checkbox) (b : Button) : String :=
  match c with
  | .windowsCheckbox => "Windows checkbox toggled with (" ++ b.click ++ ")"
  | .macosCheckbox => "MacOS checkbox toggled with (" ++ b.click ++ ")"

/-- Instrumented `click`: identical to `Button.click` but counts, in a
state monad, how many times it is invoked. -/
def Button.clickCounted (b : Button) : StateM Nat String :=
  fun n => (b.click, n + 1)

/-- Instrumented translation of `toggle_with_button`, following the source
body statement by statement: `result = button.click()` then return the
interpolated string.  The threaded counter records how many times the
supplied button's `click` was invoked. -/
def Checkbox.toggle_with_buttonCounted (c : Checkbox) (b : Button) :
    StateM Nat String := do
  let result ← b.clickCounted
  match c with
  | .windowsCheckbox => pure ("Windows checkbox toggled with (" ++ result ++ ")")
  | .macosCheckbox => pure ("MacOS checkbox toggled with (" ++ result ++ ")")

/-- Concrete factories: `WindowsGUIToolkitFactory` and
`MacOSGUIToolkitFactory`. -/
inductive GUIToolkitFactory where
  | windowsGUIToolkitFactory
  | macosGUIToolkitFactory
deriving DecidableEq, Fintype

/-- Translation of the factories' `create_button` methods. -/
def GUIToolkitFactory.create_button : GUIToolkitFactory → Button
  | .windowsGUIToolkitFactory => .windowsButton
  | .macosGUIToolkitFactory => .macosButton

/-- Translation of the factories' `create_checkbox` methods. -/
def GUIToolkitFactory.create_checkbox : GUIToolkitFactory → Checkbox
  | .windowsGUIToolkitFactory => .windowsCheckbox
  | .macosGUIToolkitFactory => .macosCheckbox

/-- Which variant family a concrete factory belongs to. -/
def GUIToolkitFactory.variant : GUIToolkitFactory → Variant
  | .windowsGUIToolkitFactory => .windows
  | .macosGUIToolkitFactory => .macos

/-- Translation of `client_code`: create a button and a checkbox from the
factory, then print `checkbox.check()` and
`checkbox.toggle_with_button(button)`.  The two printed lines are returned
as a list. -/
def client_code (factory : GUIToolkitFactory) : List String :=
  let button := factory.create_button
  let checkbox := factory.create_checkbox
  [checkbox.check, checkbox.toggle_with_button button]

/-- Model of Python's `print(s)`: emits `s` followed by a newline. -/
def pyPrint (s : String) : String := s ++ "\n"

/-- Stream emitted by printing each string of a list on its own line. -/
def printedLines (ls : List String) : String := String.join (ls.map pyPrint)

/-- Translation of the `__main__` block: narration print, Windows run,
`print("\n")` separator, narration print, MacOS run — concatenated into
the full standard-output character stream. -/
def main_stdout : String :=
  pyPrint "Client: Testing client code with the Windows GUI toolkit:"
    ++ printedLines (client_code .windowsGUIToolkitFactory)
    ++ pyPrint "\n"
    ++ pyPrint "Client: Testing the same client code with the MacOS GUI toolkit:"
    ++ printedLines (client_code .macosGUIToolkitFactory)

/-- Helper for `linesOf`: split a character list at newline characters,
accumulating the current line in reverse. -/
def linesAux : List Char → List Char → List String
  | [], acc => [String.mk acc.reverse]
  | c :: rest, acc =>
      if c = '\n' then String.mk acc.reverse :: linesAux rest []
      else linesAux rest (c :: acc)

/-- Split an output stream into its lines at newline characters. -/
def linesOf (s : String) : List String := linesAux s.data []

/-- Substring occurrence: `t` occurs contiguously inside `s`. -/
def occursIn (t s : String) : Prop := t.data <:+: s.data

instance (t s : String) : Decidable (occursIn t s) :=
  inferInstanceAs (Decidable (t.data <:+: s.data))

/-- C1: running the client demonstration routine with each concrete
factory prints exactly two lines, the variant's check line followed by its
toggle line embedding the same variant's button-click text. -/
theorem C1_client_code_two_lines :
    client_code .windowsGUIToolkitFactory =
      ["Windows checkbox is checked.",
       "Windows checkbox toggled with (You have clicked a Windows button.)"] ∧
    client_code .macosGUIToolkitFactory =
      ["MacOS checkbox is checked.",
       "MacOS checkbox toggled with (You have clicked a MacOS button.)"] := by
  decide

/-- C2: family consistency — each factory's products carry the factory's
own variant tag, and no factory's product output strings literal-match a
different factory's product output strings (the output strings determine
the factory). -/
theorem C2_family_consistency :
    (∀ f : GUIToolkitFactory,
      f.create_button.variant = f.variant ∧
      f.create_checkbox.variant = f.variant) ∧
    (∀ f g : GUIToolkitFactory,
      (f.create_button.click = g.create_button.click ↔ f = g) ∧
      (f.create_checkbox.check = g.create_checkbox.check ↔ f = g) ∧
      (∀ b : Button,
        f.create_checkbox.toggle_with_button b =
          g.create_checkbox.toggle_with_button b ↔ f = g)) := by
  decide

/-- C3: composition — for every checkbox variant and every button
(including a button of the other variant), `toggle_with_button` returns a
string containing both the checkbox's variant name and the button's exact
click text; in particular, a Windows checkbox toggled with a MacOS button
embeds the MacOS click text. -/
theorem C3_toggle_composition :
    (∀ (c : Checkbox) (b : Button),
      occursIn c.variant.name (c.toggle_with_button b) ∧
      occursIn b.click (c.toggle_with_button b)) ∧
    Checkbox.windowsCheckbox.toggle_with_button Button.macosButton =
      "Windows checkbox toggled with (You have clicked a MacOS button.)" := by
  decide

/-- C5: each factory's button click string contains the factory's variant
name and the word "button". -/
theorem C5_button_click_contains_variant :
    ∀ f : GUIToolkitFactory,
      occursIn f.variant.name f.create_button.click ∧
      occursIn "button" f.create_button.click := by
  decide

/-- C6: each factory's checkbox check string contains the factory's
variant name and the word "checked". -/
theorem C6_checkbox_check_contains_variant :
    ∀ f : GUIToolkitFactory,
      occursIn f.variant.name f.create_checkbox.check ∧
      occursIn "checked" f.create_checkbox.check := by
  decide

/-- Stateful object model for the statelessness claims: a Python object is
its class tag together with its instance attribute store.  No method body
in the source ever assigns an attribute, so every translated method
returns the store unchanged. -/
structure ButtonObj where
  cls : Button
  attrs : List (String × String)
deriving DecidableEq

/-- Stateful translation of the concrete `click` methods: return the fixed
string; the body contains no assignment, so the object is unchanged. -/
def ButtonObj.click (b : ButtonObj) : String × ButtonObj := (b.cls.click, b)

/-- Stateful checkbox object, mirroring `ButtonObj`. -/
structure CheckboxObj where
  cls : Checkbox
  attrs : List (String × String)
deriving DecidableEq

/-- Stateful translation of the concrete `check` methods. -/
def CheckboxObj.check (c : CheckboxObj) : String × CheckboxObj := (c.cls.check, c)

/-- Stateful translation of `toggle_with_button`: invoke the button's
`click` (threading the button's state), interpolate, assign nothing. -/
def CheckboxObj.toggle_with_button (c : CheckboxObj) (b : ButtonObj) :
    String × CheckboxObj × ButtonObj :=
  let rb := b.click
  match c.cls with
  | .windowsCheckbox => ("Windows checkbox toggled with (" ++ rb.1 ++ ")", c, rb.2)
  | .macosCheckbox => ("MacOS checkbox toggled with (" ++ rb.1 ++ ")", c, rb.2)

/-- Stateful factory object. -/
structure FactoryObj where
  cls : GUIToolkitFactory
  attrs : List (String × String)
deriving DecidableEq

/-- Stateful translation of `create_button`: construct a fresh product
object with an empty attribute store; the factory is unchanged. -/
def FactoryObj.create_button (f : FactoryObj) : ButtonObj × FactoryObj :=
  (⟨f.cls.create_button, []⟩, f)

/-- Stateful translation of `create_checkbox`. -/
def FactoryObj.create_checkbox (f : FactoryObj) : CheckboxObj × FactoryObj :=
  (⟨f.cls.create_checkbox, []⟩, f)

/-- C4 counterexample: the stdout of the `__main__` block does not match
the claimed layout in which the two runs are separated by a single blank
line — neither with nor without the final empty line produced by the
trailing newline. -/
theorem C4_counterexample :
    linesOf main_stdout ≠
      ["Client: Testing client code with the Windows GUI toolkit:",
       "Windows checkbox is checked.",
       "Windows checkbox toggled with (You have clicked a Windows button.)",
       "",
       "Client: Testing the same client code with the MacOS GUI toolkit:",
       "MacOS checkbox is checked.",
       "MacOS checkbox toggled with (You have clicked a MacOS button.)",
       ""] ∧
    linesOf main_stdout ≠
      ["Client: Testing client code with the Windows GUI toolkit:",
       "Windows checkbox is checked.",
       "Windows checkbox toggled with (You have clicked a Windows button.)",
       "",
       "Client: Testing the same client code with the MacOS GUI toolkit:",
       "MacOS checkbox is checked.",
       "MacOS checkbox toggled with (You have clicked a MacOS button.)"] := by
  decide

/-- C4 (amended): executed directly, the script runs the client routine
exactly twice — Windows then MacOS — with a narration line before each
run, and the two runs separated by two blank lines, because the separator
statement `print("\n")` emits a newline character plus the print
terminator. -/
theorem C4_main_layout :
    linesOf main_stdout =
      ["Client: Testing client code with the Windows GUI toolkit:",
       "Windows checkbox is checked.",
       "Windows checkbox toggled with (You have clicked a Windows button.)",
       "",
       "",
       "Client: Testing the same client code with the MacOS GUI toolkit:",
       "MacOS checkbox is checked.",
       "MacOS checkbox toggled with (You have clicked a MacOS button.)",
       ""] := by
  decide

/-- C7: idempotence and statelessness — for every operation and every
fixed receiver, a repeated call returns the identical string, and no call
changes the observable state of the receiver or its arguments. -/
theorem C7_operations_stateless :
    (∀ b : ButtonObj, b.click.1 = b.click.2.click.1 ∧ b.click.2 = b) ∧
    (∀ c : CheckboxObj, c.check.1 = c.check.2.check.1 ∧ c.check.2 = c) ∧
    (∀ (c : CheckboxObj) (b : ButtonObj),
      (c.toggle_with_button b).1 =
        ((c.toggle_with_button b).2.1.toggle_with_button
          (c.toggle_with_button b).2.2).1 ∧
      (c.toggle_with_button b).2.1 = c ∧
      (c.toggle_with_button b).2.2 = b) ∧
    (∀ f : FactoryObj,
      f.create_button.1 = f.create_button.2.create_button.1 ∧
      f.create_button.2 = f) ∧
    (∀ f : FactoryObj,
      f.create_checkbox.1 = f.create_checkbox.2.create_checkbox.1 ∧
      f.create_checkbox.2 = f) := by
  refine ⟨fun b => ⟨rfl, rfl⟩, fun c => ⟨rfl, rfl⟩, fun c b => ?_,
    fun f => ⟨rfl, rfl⟩, fun f => ⟨rfl, rfl⟩⟩
  cases h : c.cls <;>
    simp [CheckboxObj.toggle_with_button, ButtonObj.click, h]

/-- C8: totality — every operation is a total function of its
capability-conforming input (no error path exists in the embedding), and
every click, check and toggle result is a non-empty string. -/
theorem C8_operations_total_nonempty :
    (∀ b : Button, 0 < b.click.length) ∧
    (∀ c : Checkbox, 0 < c.check.length) ∧
    (∀ (c : Checkbox) (b : Button), 0 < (c.toggle_with_button b).length) ∧
    (∀ f : GUIToolkitFactory, 0 < f.create_button.click.length) ∧
    (∀ f : GUIToolkitFactory, 0 < f.create_checkbox.check.length) := by
  decide

namespace ABCModel

/-- Class hierarchy of the source module, one constructor per `class`
statement. -/
inductive PyClass where
  | guiToolkitFactory
  | windowsGUIToolkitFactory
  | macOSGUIToolkitFactory
  | button
  | windowsButton
  | macOSButton
  | checkbox
  | windowsCheckbox
  | macOSCheckbox
deriving DecidableEq, Fintype

/-- Source name of each class. -/
def PyClass.name : PyClass → String
  | .guiToolkitFactory => "GUIToolkitFactory"
  | .windowsGUIToolkitFactory => "WindowsGUIToolkitFactory"
  | .macOSGUIToolkitFactory => "MacOSGUIToolkitFactory"
  | .button => "Button"
  | .windowsButton => "WindowsButton"
  | .macOSButton => "MacOSButton"
  | .checkbox => "Checkbox"
  | .windowsCheckbox => "WindowsCheckbox"
  | .macOSCheckbox => "MacOSCheckbox"

/-- Methods left abstract in each class, read off the `@abstractmethod`
declarations of the source: the three ABC base classes declare their
operations abstract, and every concrete subclass overrides all of them. -/
def PyClass.abstractMethods : PyClass → List String
  | .guiToolkitFactory => ["create_button", "create_checkbox"]
  | .button => ["click"]
  | .checkbox => ["check", "toggle_with_button"]
  | _ => []

/-- Modelled from the spec: the construction-time guard of the `abc`
machinery, whose enforcement code lives outside this repository.  Per the
spec, attempting to instantiate an abstract capability directly "should
fail fast with a descriptive error rather than producing a usable object";
instantiation succeeds exactly when no abstract method remains. -/
def instantiate (c : PyClass) : Except String PyClass :=
  if c.abstractMethods.isEmpty then .ok c
  else .error ("Can't instantiate abstract class " ++ c.name
    ++ " with abstract methods " ++ String.intercalate ", " c.abstractMethods)

end ABCModel

/-- C9: instantiating any of the three abstract capabilities directly is
rejected at construction time with a descriptive error, while every
concrete variant class constructs successfully. -/
theorem C9_abstract_instantiation_rejected :
    ABCModel.instantiate .button =
      .error "Can't instantiate abstract class Button with abstract methods click" ∧
    ABCModel.instantiate .checkbox =
      .error "Can't instantiate abstract class Checkbox with abstract methods check, toggle_with_button" ∧
    ABCModel.instantiate .guiToolkitFactory =
      .error "Can't instantiate abstract class GUIToolkitFactory with abstract methods create_button, create_checkbox" ∧
    ABCModel.instantiate .windowsGUIToolkitFactory = .ok .windowsGUIToolkitFactory ∧
    ABCModel.instantiate .macOSGUIToolkitFactory = .ok .macOSGUIToolkitFactory ∧
    ABCModel.instantiate .windowsButton = .ok .windowsButton ∧
    ABCModel.instantiate .macOSButton = .ok .macOSButton ∧
    ABCModel.instantiate .windowsCheckbox = .ok .windowsCheckbox ∧
    ABCModel.instantiate .macOSCheckbox = .ok .macOSCheckbox := by
  exact ⟨rfl, rfl, rfl, rfl, rfl, rfl, rfl, rfl, rfl⟩

/-- C10: exact composition format — for every button, each checkbox's
toggle returns exactly its variant label, the verbatim click result and
the surrounding parentheses; the instrumented translation shows the
button's `click` is invoked exactly once per call. -/
theorem C10_toggle_exact_format_click_once :
    ∀ b : Button,
      Checkbox.windowsCheckbox.toggle_with_button b =
        "Windows checkbox toggled with (" ++ b.click ++ ")" ∧
      Checkbox.macosCheckbox.toggle_with_button b =
        "MacOS checkbox toggled with (" ++ b.click ++ ")" ∧
      StateT.run (Checkbox.windowsCheckbox.toggle_with_buttonCounted b) 0 =
        ("Windows checkbox toggled with (" ++ b.click ++ ")", 1) ∧
      StateT.run (Checkbox.macosCheckbox.toggle_with_buttonCounted b) 0 =
        ("MacOS checkbox toggled with (" ++ b.click ++ ")", 1) := by
  intro b
  exact ⟨rfl, rfl, rfl, rfl⟩
